import Mathlib

/-!
Shallow embedding of the PLC polling engine of the `plc_admin` repository:
device connection lifecycle with reconnection backoff (`plc_collector.py`,
class `PLCConnection`), the Modbus protocol handler batch read
(`protocols/modbus_protocol.py`), the raw-to-scaled data pipeline and
per-device persistence (`plc_collector.py`, `PLCCollector._collect_device_data`),
the device loader (`PLCCollector._load_devices`), the device status surface
(`PLCCollector.get_device_status`) and the anomaly detector
(`database.py`, `DatabaseManager.query_anomalies`).

Numeric values (Python floats) are modelled by rationals; timestamps are
modelled as seconds, also rational.  Python dicts whose insertion order and
overwrite semantics matter are modelled as association lists.
-/

namespace PlcAdmin

/-! ## Python dict as association list (insertion ordered, assignment overwrites) -/

/-- Assignment `d[k] = v` on a Python dict: replaces the value in place when
the key exists, otherwise appends the binding at the end. -/
def dictInsert (d : List (String × ℚ)) (k : String) (v : ℚ) : List (String × ℚ) :=
  match d with
  | [] => [(k, v)]
  | (k₀, v₀) :: rest =>
      if k₀ = k then (k₀, v) :: rest else (k₀, v₀) :: dictInsert rest k v

/-- Lookup `d.get(k)` on a Python dict: the value bound to `k`, if any. -/
def dictGet (d : List (String × ℚ)) (k : String) : Option ℚ :=
  match d with
  | [] => none
  | (k₀, v₀) :: rest => if k₀ = k then some v₀ else dictGet rest k

/-! ## Decimal rendering of natural numbers

Models Python `str(int)` / f-string interpolation of a station id.  Built on
`Nat.digits` so that injectivity can be derived from `Nat.ofDigits_digits`. -/

/-- Decimal string of a natural number (model of Python `str(n)` for `n ≥ 0`). -/
def natStr (n : ℕ) : String :=
  if n = 0 then "0" else ⟨((Nat.digits 10 n).map Nat.digitChar).reverse⟩

/-! ## Substring containment

Models the Python expression `needle in haystack` on strings. -/

/-- Boolean test that the first char list is an initial segment of the second. -/
def chainStarts : List Char → List Char → Bool
  | [], _ => true
  | _ :: _, [] => false
  | a :: as, b :: bs => a == b && chainStarts as bs

/-- Boolean test that the first char list occurs contiguously in the second. -/
def chainInside : List Char → List Char → Bool
  | n, [] => n.isEmpty
  | n, b :: t => chainStarts n (b :: t) || chainInside n t

/-- Model of the Python expression `needle in haystack` for strings. -/
def pyIn (needle hay : String) : Bool :=
  chainInside needle.data hay.data

/-! ## PLCConnection: reconnection backoff state machine (plc_collector.py 28-107)

`PLCConnection.connect` / `PLCConnection._should_skip_connect`.  The state
carries exactly the fields the source mutates: `is_connected`, `_retry_count`,
`_last_connect_time` (set only on a successful connect, line 73) and
`last_error`.  Wall-clock time is passed in explicitly as seconds. -/

structure ConnState where
  is_connected : Bool
  retry_count : ℕ
  last_connect_time : Option ℚ
  last_error : Option String
  deriving Repr, DecidableEq

/-- State of a fresh `PLCConnection` (no successful connect yet). -/
def initConnState : ConnState := ⟨false, 0, none, none⟩

/-- Backoff delay `min(2 ** retry_count, 300)` (plc_collector.py line 100). -/
def backoffDelay (retry : ℕ) : ℚ := min ((2 : ℚ) ^ retry) 300

/-- Embeds `PLCConnection._should_skip_connect` (plc_collector.py 93-107). -/
def should_skip_connect (s : ConnState) (now : ℚ) : Bool :=
  if s.is_connected then true
  else if 0 < s.retry_count then
    match s.last_connect_time with
    | some t => decide (now - t < backoffDelay s.retry_count)
    | none => false
  else false

/-- Outcome of the underlying `protocol_handler.connect()` call. -/
structure ProtoConnect where
  success : Bool
  error : String
  deriving Repr, DecidableEq

/-- Embeds `PLCConnection.connect` (plc_collector.py 58-91).  Returns the new
state, the Boolean return value, and whether a protocol-level connect was
attempted (false exactly on the `_should_skip_connect` early return). -/
def plcConnect (s : ConnState) (now : ℚ) (proto : ProtoConnect) :
    ConnState × Bool × Bool :=
  if should_skip_connect s now then (s, s.is_connected, false)
  else if proto.success then
    (⟨true, 0, some now, none⟩, true, true)
  else
    (⟨false, s.retry_count + 1, s.last_connect_time, some proto.error⟩, false, true)

/-! ## Injectivity of the decimal rendering -/

lemma digitChar_inj : ∀ a < 10, ∀ b < 10,
    Nat.digitChar a = Nat.digitChar b → a = b := by decide

lemma map_digitChar_inj : ∀ l₁ l₂ : List ℕ, (∀ x ∈ l₁, x < 10) →
    (∀ x ∈ l₂, x < 10) → l₁.map Nat.digitChar = l₂.map Nat.digitChar → l₁ = l₂ := by
  intro l₁
  induction l₁ with
  | nil =>
    intro l₂ _ _ h
    cases l₂ with
    | nil => rfl
    | cons b bs => simp at h
  | cons a as ih =>
    intro l₂ h₁ h₂ h
    cases l₂ with
    | nil => simp at h
    | cons b bs =>
      simp only [List.map_cons, List.cons.injEq] at h
      have hab : a = b :=
        digitChar_inj a (h₁ a (List.mem_cons_self a as)) b
          (h₂ b (List.mem_cons_self b bs)) h.1
      have hrest : as = bs :=
        ih bs (fun x hx => h₁ x (List.mem_cons_of_mem a hx))
          (fun x hx => h₂ x (List.mem_cons_of_mem b hx)) h.2
      rw [hab, hrest]

lemma natStr_ne_zeroStr {n : ℕ} (hn : n ≠ 0) : natStr n ≠ "0" := by
  intro h
  rw [natStr, if_neg hn] at h
  have hd : ((Nat.digits 10 n).map Nat.digitChar).reverse = ['0'] :=
    congrArg String.data h
  have hmap : (Nat.digits 10 n).map Nat.digitChar = ['0'] := by
    have := congrArg List.reverse hd
    simpa using this
  have hdig : Nat.digits 10 n = [0] := by
    apply map_digitChar_inj
    · exact fun x hx => Nat.digits_lt_base (by norm_num) hx
    · intro x hx; simp at hx; omega
    · rw [hmap]; rfl
  have hzero := Nat.ofDigits_digits 10 n
  rw [hdig] at hzero
  simp [Nat.ofDigits] at hzero
  exact hn hzero.symm

lemma natStr_injective : Function.Injective natStr := by
  intro m n h
  by_cases hm : m = 0 <;> by_cases hn : n = 0
  · rw [hm, hn]
  · exact absurd (by rw [← h, hm]; rfl) (natStr_ne_zeroStr hn)
  · exact absurd (by rw [h, hn]; rfl) (natStr_ne_zeroStr hm)
  · rw [natStr, natStr, if_neg hm, if_neg hn] at h
    have hd : ((Nat.digits 10 m).map Nat.digitChar).reverse =
        ((Nat.digits 10 n).map Nat.digitChar).reverse := congrArg String.data h
    have hmap := List.reverse_injective hd
    have hdig : Nat.digits 10 m = Nat.digits 10 n :=
      map_digitChar_inj _ _ (fun x hx => Nat.digits_lt_base (by norm_num) hx)
        (fun x hx => Nat.digits_lt_base (by norm_num) hx) hmap
    have := Nat.ofDigits_digits 10 m
    rw [hdig, Nat.ofDigits_digits] at this
    exact this.symm

/-! ## Modbus protocol handler (protocols/modbus_protocol.py)

The handler delegates the wire exchange to a protocol library; the embedding
takes the per-address library responses as input and models the handler logic
on top of them: typed result parsing, error classification, storage-key
construction and the `has_network_communication` flag of `read_addresses`. -/

/-- Semantic data type of an address (address config `type` field). -/
inductive DataType
  | bool | int16 | uint16 | int32 | uint32 | float | string
  deriving Repr, DecidableEq

/-- Scaling block of an address config (the `scaling` dict); fields are
optional and defaults are applied at the use site via `dict.get`, as in the
source (plc_collector.py 677-681). -/
structure ScalingCfg where
  enabled : Bool
  inputMin : Option ℚ
  inputMax : Option ℚ
  outputMin : Option ℚ
  outputMax : Option ℚ
  deriving Repr, DecidableEq

/-- Address configuration dict, restricted to the fields the embedded code
paths read. -/
structure AddrConfig where
  address : String
  dtype : Option DataType
  stationId : Option ℕ
  scale : Option ℚ
  scaling : Option ScalingCfg
  deriving Repr, DecidableEq

/-- Embeds `_is_rtu_over_tcp` (modbus_protocol.py 134-139) and the equivalent
inline check of the collector (plc_collector.py 643-649): both lowercase the
device `plc_type` and test substring containment of "tcp" and "rtu". -/
def isRtuOverTcp (plcType : String) : Bool :=
  pyIn "tcp" plcType.toLower && pyIn "rtu" plcType.toLower

/-- Embeds `_create_storage_key` (modbus_protocol.py 147-151). -/
def create_storage_key (isRtu : Bool) (address : String) (stationId : ℕ) : String :=
  if isRtu then address ++ "_s" ++ natStr stationId else address

/-- Network-related keywords of `_handle_read_error` (modbus_protocol.py 252-255). -/
def network_error_keywords : List String :=
  ["timeout", "connection", "network", "socket", "unreachable", "refused",
   "reset", "closed"]

/-- Classification of a read-failure message as network-level
(`_handle_read_error`, modbus_protocol.py 249-257). -/
def is_network_error (msg : String) : Bool :=
  network_error_keywords.any fun k => pyIn k msg.toLower

/-- Content of a successful typed read (`read_result.Content`). -/
inductive Content
  | boolean (b : Bool)
  | number (q : ℚ)
  | str (s : String)
  deriving Repr, DecidableEq

/-- Result of `_read_with_retry` for one address: a protocol response with
`IsSuccess` true and a content, a protocol response with `IsSuccess` false
and an error message, or no response at all (`None` after retries or an
exception). -/
inductive ReadResult
  | ok (c : Content)
  | err (message : String)
  | noResponse
  deriving Repr, DecidableEq

/-- Folds a run of decimal digit characters into a number; any non-digit
character fails.  The empty run yields 0 and is rejected by the caller where
Python `float()` would reject it. -/
def digitsVal? (l : List Char) : Option ℕ :=
  l.foldl
    (fun acc c => acc.bind fun n =>
      if c.isDigit then some (n * 10 + (c.toNat - '0'.toNat)) else none)
    (some 0)

/-- Model of Python `float(s)` on strings: optional sign, then decimal digits
with at most one decimal point; anything else fails to coerce.  (Python also
accepts exponent and special forms, which never matter for the claims: the
model only needs that well-formed decimals parse and non-numeric text does
not.) -/
def pyFloat? (s : String) : Option ℚ :=
  let core : List Char → Option ℚ := fun l =>
    let ip := l.takeWhile fun c => c != '.'
    let rest := l.dropWhile fun c => c != '.'
    match rest with
    | [] =>
        if ip.isEmpty then none
        else (digitsVal? ip).map fun n => (n : ℚ)
    | _ :: fp =>
        if fp.contains '.' then none
        else if ip.isEmpty && fp.isEmpty then none
        else
          match digitsVal? ip, digitsVal? fp with
          | some a, some b => some ((a : ℚ) + (b : ℚ) / (10 : ℚ) ^ fp.length)
          | _, _ => none
  match s.data with
  | '-' :: r => (core r).map fun q => -q
  | '+' :: r => core r
  | l => core l

/-- Embeds `_parse_read_result` (modbus_protocol.py 201-247): booleans map to
1/0, strings are coerced with `float()` and yield `none` on coercion failure,
numeric reads pass through; a content shape that does not match the declared
type models the exception path, which also yields `none`. -/
def parse_read_result (dt : DataType) (c : Content) : Option ℚ :=
  match dt, c with
  | .bool, .boolean b => some (if b then 1 else 0)
  | .string, .str s => pyFloat? s
  | .int16, .number q => some q
  | .uint16, .number q => some q
  | .int32, .number q => some q
  | .uint32, .number q => some q
  | .float, .number q => some q
  | _, _ => none

/-- One address of a batch read: the address string, its config, and the
response the protocol library produced for it. -/
structure AddrRead where
  address : String
  cfg : AddrConfig
  result : ReadResult
  deriving Repr, DecidableEq

/-- The numeric value decoded for one address, if any: the read must have
succeeded at protocol level AND the content must parse to a number
(modbus_protocol.py 351-354). -/
def decoded_value (a : AddrRead) : Option ℚ :=
  match a.result with
  | .ok c => parse_read_result (a.cfg.dtype.getD .int16) c
  | _ => none

/-- Station id used for one address: the per-address config value, defaulting
to the device station (modbus_protocol.py 332). -/
def read_station (deviceStation : ℕ) (a : AddrRead) : ℕ :=
  a.cfg.stationId.getD deviceStation

/-- Loop of `read_addresses` (modbus_protocol.py 324-366): accumulates the
values dict and the `has_network_communication` flag, which is set exactly
when a read succeeds and its content decodes to a number. -/
def read_loop (isRtu : Bool) (deviceStation : ℕ) :
    List AddrRead → List (String × ℚ) → Bool → List (String × ℚ) × Bool
  | [], vals, online => (vals, online)
  | a :: rest, vals, online =>
      match decoded_value a with
      | some v =>
          read_loop isRtu deviceStation rest
            (dictInsert vals
              (create_storage_key isRtu a.address (read_station deviceStation a)) v)
            true
      | none => read_loop isRtu deviceStation rest vals online

/-- Embeds `ModbusProtocolHandler.read_addresses` (modbus_protocol.py
298-372) over the per-address library responses. -/
def modbus_read_addresses (isRtu : Bool) (deviceStation : ℕ)
    (batch : List AddrRead) : List (String × ℚ) × Bool :=
  read_loop isRtu deviceStation batch [] false

/-- A read outcome that constitutes a protocol-level (not network-level)
response in the sense of the spec: a successful response, or an error
response whose message `_handle_read_error` does not classify as a network
failure. -/
def protocol_level_response (r : ReadResult) : Bool :=
  match r with
  | .ok _ => true
  | .err m => !(is_network_error m)
  | .noResponse => false

/-! ## Theorems for claim C1 (reconnection backoff) -/

/-- C1 counterexample: the claim fails on the code.  After a first failed
connect at time 0 the retry count is 1 and `_last_connect_time` is still
`None` (it is set only on a successful connect, plc_collector.py line 73), so
a second `connect()` only 1 second after that attempt — elapsed 1 below the
backoff delay min(2^1, 300) = 2 — is NOT skipped: a protocol-level connect is
attempted and the retry count changes from 1 to 2. -/
theorem backoff_skip_counterexample :
    ((plcConnect initConnState 0 ⟨false, "refused"⟩).1.retry_count = 1 ∧
      (plcConnect initConnState 0 ⟨false, "refused"⟩).1.is_connected = false) ∧
    ((1 : ℚ) - 0 < backoffDelay 1) ∧
    ((plcConnect (plcConnect initConnState 0 ⟨false, "refused"⟩).1 1
        ⟨false, "refused"⟩).2.2 = true) ∧
    ((plcConnect (plcConnect initConnState 0 ⟨false, "refused"⟩).1 1
        ⟨false, "refused"⟩).1.retry_count = 2) := by
  refine ⟨by decide, ?_, by decide, by decide⟩
  norm_num [backoffDelay, min_def]

/-- C1 amended: the backoff delay for retry count n is min(2^n, 300) seconds,
but the window is measured from the time of the last SUCCESSFUL connect and
only applies when the retry count is positive.  A `connect()` call inside
that window is skipped entirely: no protocol-level connect is attempted, the
state (retry count, last error, connected flag) is unchanged and the current
connected flag is returned.  When the connection has never succeeded (no
recorded connect time) or the retry count is 0, a disconnected connection is
never skipped. -/
theorem backoff_skip_amended (s : ConnState) (now t : ℚ) (p : ProtoConnect)
    (hlt : s.last_connect_time = some t) (hr : 0 < s.retry_count)
    (hwin : now - t < backoffDelay s.retry_count) :
    plcConnect s now p = (s, s.is_connected, false) ∧
    (∀ (s₂ : ConnState) (now₂ : ℚ) (p₂ : ProtoConnect), s₂.is_connected = false →
      s₂.last_connect_time = none → (plcConnect s₂ now₂ p₂).2.2 = true) ∧
    (∀ (s₂ : ConnState) (now₂ : ℚ) (p₂ : ProtoConnect), s₂.is_connected = false →
      s₂.retry_count = 0 → (plcConnect s₂ now₂ p₂).2.2 = true) := by
  refine ⟨?_, ?_, ?_⟩
  · unfold plcConnect should_skip_connect
    rw [hlt]
    by_cases hc : s.is_connected
    · simp [hc]
    · simp [hc, hr, hwin]
  · intro s₂ now₂ p₂ hc hn
    unfold plcConnect should_skip_connect
    rw [hn, hc]
    by_cases h2 : 0 < s₂.retry_count <;> by_cases hp : p₂.success <;>
      simp [h2, hp]
  · intro s₂ now₂ p₂ hc hz
    unfold plcConnect should_skip_connect
    rw [hc, hz]
    by_cases hp : p₂.success <;> simp [hp]

/-- Witness for the amended C1 theorem at a concrete state: retry count 1,
last successful connect at time 0, a new attempt at time 1 (inside the
2-second window) is skipped with the state unchanged. -/
theorem backoff_skip_amended_witness :
    plcConnect ⟨false, 1, some 0, none⟩ 1 ⟨false, "refused"⟩ =
      (⟨false, 1, some 0, none⟩, false, false) := by
  have h := backoff_skip_amended ⟨false, 1, some 0, none⟩ 1 0 ⟨false, "refused"⟩
    rfl (by decide) (by norm_num [backoffDelay, min_def])
  exact h.1

/-! ## Theorems for claim C2 (isOnline flag of read_addresses) -/

lemma read_loop_online (isRtu : Bool) (ds : ℕ) :
    ∀ (l : List AddrRead) (vals : List (String × ℚ)) (online : Bool),
      (read_loop isRtu ds l vals online).2 =
        (online || l.any fun a => (decoded_value a).isSome)
  | [], vals, online => by simp [read_loop]
  | a :: rest, vals, online => by
    cases h : decoded_value a with
    | some v =>
      simp only [read_loop, h]
      rw [read_loop_online isRtu ds rest _ true]
      simp [h]
    | none =>
      simp only [read_loop, h]
      rw [read_loop_online isRtu ds rest vals online]
      simp [h]

/-- C2 counterexample: the claim fails on the code.  A batch with a single
string-typed address whose read succeeds at protocol level but whose content
"abc" fails numeric coercion is, per the claim, a batch in which at least one
address produced a protocol-level response — yet `read_addresses` returns
`isOnline = false`, because `has_network_communication` is set only when a
read succeeds AND its content decodes to a number
(modbus_protocol.py 351-358). -/
theorem isOnline_counterexample :
    ([AddrRead.mk "40001" ⟨"40001", some .string, some 1, none, none⟩
        (.ok (.str "abc"))].any fun a => protocol_level_response a.result) = true ∧
    (modbus_read_addresses false 1
      [AddrRead.mk "40001" ⟨"40001", some .string, some 1, none, none⟩
        (.ok (.str "abc"))]).2 = false := by
  decide

/-- C2 amended: for every batch read via `read_addresses`, the returned
`isOnline` flag is true if and only if at least one address in the batch was
read successfully at protocol level AND its result decoded to a number;
addresses that failed to read (even with a protocol-level error response) or
whose result failed numeric coercion do not make the flag true. -/
theorem isOnline_amended (isRtu : Bool) (deviceStation : ℕ)
    (batch : List AddrRead) :
    (modbus_read_addresses isRtu deviceStation batch).2 =
      (batch.any fun a => (decoded_value a).isSome) := by
  simp [modbus_read_addresses, read_loop_online]

/-! ## Theorems for claim C6 (storage keys under RTU-over-TCP) -/

lemma storage_key_ne (addr : String) {s₁ s₂ : ℕ} (h : s₁ ≠ s₂) :
    create_storage_key true addr s₁ ≠ create_storage_key true addr s₂ := by
  intro hkey
  apply h
  apply natStr_injective
  have hd := congrArg String.data hkey
  simp only [create_storage_key, if_pos, String.data_append] at hd
  have h₁ := List.append_cancel_left hd
  exact String.ext h₁

/-- The key under which the collector pipeline looks a value up
(plc_collector.py 651-659): `address_s{stationId}` for RTU-over-TCP with the
config station id (default 1), the bare address otherwise. -/
def collector_lookup_key (isRtu : Bool) (cfg : AddrConfig) : String :=
  if isRtu then cfg.address ++ "_s" ++ natStr (cfg.stationId.getD 1)
  else cfg.address

/-- A float-typed address config at an explicit station, used to express the
two-stations-one-address scenario. -/
def numCfg (addr : String) (s : ℕ) : AddrConfig :=
  ⟨addr, some .float, some s, none, none⟩

/-- C6: under RTU-over-TCP, storage keys for the same address at distinct
station ids are distinct, so in a batch that reads the same address from two
distinct stations neither value overwrites the other in the result map;
plain TCP variants use the bare address as the key; and for a config with an
explicit station id the collector pipeline looks values up under exactly the
key the handler stored them under. -/
theorem storage_key_spec :
    (∀ (addr : String) (s₁ s₂ : ℕ), s₁ ≠ s₂ →
      create_storage_key true addr s₁ ≠ create_storage_key true addr s₂) ∧
    (∀ (addr : String) (s : ℕ), create_storage_key false addr s = addr) ∧
    (∀ (isRtu : Bool) (cfg : AddrConfig) (s : ℕ), cfg.stationId = some s →
      collector_lookup_key isRtu cfg = create_storage_key isRtu cfg.address s) ∧
    (∀ (addr : String) (dev s₁ s₂ : ℕ) (v₁ v₂ : ℚ), s₁ ≠ s₂ →
      dictGet (modbus_read_addresses true dev
          [⟨addr, numCfg addr s₁, .ok (.number v₁)⟩,
           ⟨addr, numCfg addr s₂, .ok (.number v₂)⟩]).1
        (create_storage_key true addr s₁) = some v₁ ∧
      dictGet (modbus_read_addresses true dev
          [⟨addr, numCfg addr s₁, .ok (.number v₁)⟩,
           ⟨addr, numCfg addr s₂, .ok (.number v₂)⟩]).1
        (create_storage_key true addr s₂) = some v₂) := by
  refine ⟨fun addr s₁ s₂ h => storage_key_ne addr h, fun addr s => rfl, ?_, ?_⟩
  · intro isRtu cfg s hs
    cases isRtu <;> simp [collector_lookup_key, create_storage_key, hs]
  · intro addr dev s₁ s₂ v₁ v₂ hne
    have hk := storage_key_ne addr hne
    constructor <;>
      simp [modbus_read_addresses, read_loop, decoded_value, numCfg,
        parse_read_result, read_station, dictInsert, dictGet, hk, Ne.symm hk]

/-- Witness for C6 at concrete inputs: address "100", stations 1 and 2,
values 7 and 9. -/
theorem storage_key_spec_witness :
    create_storage_key true "100" 1 ≠ create_storage_key true "100" 2 ∧
    create_storage_key false "100" 7 = "100" ∧
    collector_lookup_key true (numCfg "100" 2) =
      create_storage_key true "100" 2 ∧
    dictGet (modbus_read_addresses true 1
        [⟨"100", numCfg "100" 1, .ok (.number 7)⟩,
         ⟨"100", numCfg "100" 2, .ok (.number 9)⟩]).1
      (create_storage_key true "100" 1) = some 7 :=
  ⟨storage_key_spec.1 "100" 1 2 (by decide),
   storage_key_spec.2.1 "100" 7,
   storage_key_spec.2.2.1 true (numCfg "100" 2) 2 rfl,
   (storage_key_spec.2.2.2 "100" 1 1 2 7 9 (by decide)).1⟩

/-! ## Data pipeline: scaling and persistence (plc_collector.py 597-784) -/

/-- Embeds the scaling step of `_collect_device_data` (plc_collector.py
667-688): a simple multiplier `scale` different from its default 1.0 takes
precedence; otherwise enabled min-max scaling applies the linear map when
`inputMax != inputMin` and passes the raw value through unchanged when they
are equal; with no scaling configured the raw value passes through. -/
def apply_scaling (cfg : AddrConfig) (raw : ℚ) : ℚ :=
  let scale := cfg.scale.getD 1
  if scale ≠ 1 then raw * scale
  else
    match cfg.scaling with
    | some sc =>
        if sc.enabled then
          let inputMin := sc.inputMin.getD 0
          let inputMax := sc.inputMax.getD 100
          let outputMin := sc.outputMin.getD 0
          let outputMax := sc.outputMax.getD 10
          if inputMax ≠ inputMin then
            outputMin + (raw - inputMin) * (outputMax - outputMin) /
              (inputMax - inputMin)
          else raw
        else raw
    | none => raw

/-- Writes issued by one `_collect_device_data` cycle for one device:
the points written individually via `write_enhanced_plc_data`, the points
accumulated in `batch_data_points`, and whether the end-of-cycle
`write_batch_plc_data` call is issued. -/
structure PersistTrace where
  individualWrites : List (String × ℚ)
  batchPoints : List (String × ℚ)
  batchWriteIssued : Bool
  deriving Repr, DecidableEq

/-- Per-config body of the persistence loop of `_collect_device_data`
(plc_collector.py 638-736): look the raw value up under the
protocol-appropriate key, scale it, write the point individually and, when
the device has more than 10 configured addresses, also accumulate it for the
batch write. -/
def persist_step (isRtu : Bool) (n : ℕ) (values : List (String × ℚ))
    (acc : List (String × ℚ) × List (String × ℚ)) (cfg : AddrConfig) :
    List (String × ℚ) × List (String × ℚ) :=
  match dictGet values (collector_lookup_key isRtu cfg) with
  | some raw =>
      let scaled := apply_scaling cfg raw
      (acc.1 ++ [(cfg.address, scaled)],
       if 10 < n then acc.2 ++ [(cfg.address, scaled)] else acc.2)
  | none => acc

/-- Embeds the persistence behaviour of `_collect_device_data`
(plc_collector.py 634-747): the loop over the address configs followed by
the conditional batch write (`if batch_data_points and len(address_configs)
> 10`). -/
def collect_persist (isRtu : Bool) (configs : List AddrConfig)
    (values : List (String × ℚ)) : PersistTrace :=
  let acc := configs.foldl (persist_step isRtu configs.length values) ([], [])
  ⟨acc.1, acc.2, !acc.2.isEmpty && decide (10 < configs.length)⟩

/-! ## Theorems for claim C5 (scaling algebra) -/

/-- C5: for every successfully read raw value, a configured simple
multiplier (a `scale` value different from its default 1.0) gives
`scaled = raw * scale`; otherwise enabled min-max scaling with
`inputMax != inputMin` gives the linear map, and `inputMax == inputMin`
passes the raw value through unscaled; in particular with bounds
0/100 -> 0/10 a raw 50 scales to 5 and a raw value equal to `inputMin`
scales to `outputMin`. -/
theorem scaling_spec :
    (∀ (cfg : AddrConfig) (raw s : ℚ), cfg.scale = some s → s ≠ 1 →
      apply_scaling cfg raw = raw * s) ∧
    (∀ (sc : ScalingCfg) (addr : String) (dt : Option DataType)
        (st : Option ℕ) (raw : ℚ), sc.enabled = true →
      sc.inputMax.getD 100 ≠ sc.inputMin.getD 0 →
      apply_scaling ⟨addr, dt, st, none, some sc⟩ raw =
        sc.outputMin.getD 0 + (raw - sc.inputMin.getD 0) *
          (sc.outputMax.getD 10 - sc.outputMin.getD 0) /
          (sc.inputMax.getD 100 - sc.inputMin.getD 0)) ∧
    (∀ (sc : ScalingCfg) (addr : String) (dt : Option DataType)
        (st : Option ℕ) (raw : ℚ), sc.enabled = true →
      sc.inputMax.getD 100 = sc.inputMin.getD 0 →
      apply_scaling ⟨addr, dt, st, none, some sc⟩ raw = raw) ∧
    (apply_scaling ⟨"a", none, none, none,
        some ⟨true, some 0, some 100, some 0, some 10⟩⟩ 50 = 5) ∧
    (∀ (inMin inMax outMin outMax : ℚ), inMax ≠ inMin →
      apply_scaling ⟨"a", none, none, none,
        some ⟨true, some inMin, some inMax, some outMin, some outMax⟩⟩ inMin
        = outMin) := by
  refine ⟨?_, ?_, ?_, ?_, ?_⟩
  · intro cfg raw s hs hne
    simp [apply_scaling, hs, hne]
  · intro sc addr dt st raw hen hne
    simp [apply_scaling, hen, hne]
  · intro sc addr dt st raw hen heq
    simp [apply_scaling, hen, heq]
  · norm_num [apply_scaling]
  · intro inMin inMax outMin outMax hne
    simp [apply_scaling, hne]

/-- Witness for C5 at concrete inputs: multiplier 2 on raw 3 gives 6, and
degenerate bounds inputMin = inputMax = 7 pass raw 42 through unscaled. -/
theorem scaling_spec_witness :
    apply_scaling ⟨"a", none, none, some 2, none⟩ 3 = 3 * 2 ∧
    apply_scaling ⟨"a", none, none, none,
      some ⟨true, some 7, some 7, some 0, some 10⟩⟩ 42 = 42 ∧
    apply_scaling ⟨"a", none, none, none,
      some ⟨true, some 0, some 100, some 0, some 10⟩⟩ 0 = 0 :=
  ⟨scaling_spec.1 _ 3 2 rfl (by norm_num),
   scaling_spec.2.2.1 ⟨true, some 7, some 7, some 0, some 10⟩ "a" none none 42
     rfl (by norm_num),
   scaling_spec.2.2.2.2 0 100 0 10 (by norm_num)⟩

/-! ## Theorems for claim C3 (individual versus batched persistence) -/

lemma persist_step_fst_mono (isRtu : Bool) (n : ℕ) (values : List (String × ℚ))
    (acc : List (String × ℚ) × List (String × ℚ)) (cfg : AddrConfig)
    (x : String × ℚ) (hx : x ∈ acc.1) :
    x ∈ (persist_step isRtu n values acc cfg).1 := by
  unfold persist_step
  cases h : dictGet values (collector_lookup_key isRtu cfg) <;> simp [hx]

lemma persist_step_snd_mono (isRtu : Bool) (n : ℕ) (values : List (String × ℚ))
    (acc : List (String × ℚ) × List (String × ℚ)) (cfg : AddrConfig)
    (x : String × ℚ) (hx : x ∈ acc.2) :
    x ∈ (persist_step isRtu n values acc cfg).2 := by
  unfold persist_step
  cases h : dictGet values (collector_lookup_key isRtu cfg) with
  | none => exact hx
  | some raw =>
    by_cases h10 : 10 < n <;> simp [h10, hx]

lemma persist_foldl_fst_mono (isRtu : Bool) (n : ℕ)
    (values : List (String × ℚ)) :
    ∀ (configs : List AddrConfig)
      (acc : List (String × ℚ) × List (String × ℚ)) (x : String × ℚ),
      x ∈ acc.1 → x ∈ (configs.foldl (persist_step isRtu n values) acc).1
  | [], _, _, hx => hx
  | cfg :: rest, acc, x, hx =>
    persist_foldl_fst_mono isRtu n values rest _ x
      (persist_step_fst_mono isRtu n values acc cfg x hx)

lemma persist_foldl_snd_mono (isRtu : Bool) (n : ℕ)
    (values : List (String × ℚ)) :
    ∀ (configs : List AddrConfig)
      (acc : List (String × ℚ) × List (String × ℚ)) (x : String × ℚ),
      x ∈ acc.2 → x ∈ (configs.foldl (persist_step isRtu n values) acc).2
  | [], _, _, hx => hx
  | cfg :: rest, acc, x, hx =>
    persist_foldl_snd_mono isRtu n values rest _ x
      (persist_step_snd_mono isRtu n values acc cfg x hx)

lemma persist_foldl_fst_mem (isRtu : Bool) (n : ℕ)
    (values : List (String × ℚ)) :
    ∀ (configs : List AddrConfig)
      (acc : List (String × ℚ) × List (String × ℚ)) (cfg : AddrConfig),
      cfg ∈ configs →
      ∀ raw : ℚ, dictGet values (collector_lookup_key isRtu cfg) = some raw →
      (cfg.address, apply_scaling cfg raw) ∈
        (configs.foldl (persist_step isRtu n values) acc).1
  | [], _, _, hmem, _, _ => absurd hmem (List.not_mem_nil _)
  | c :: rest, acc, cfg, hmem, raw, hraw => by
    rcases List.mem_cons.mp hmem with heq | htail
    · subst heq
      apply persist_foldl_fst_mono isRtu n values rest
      unfold persist_step
      simp [hraw]
    · exact persist_foldl_fst_mem isRtu n values rest _ cfg htail raw hraw

lemma persist_foldl_snd_mem (isRtu : Bool) (n : ℕ)
    (values : List (String × ℚ)) (h10 : 10 < n) :
    ∀ (configs : List AddrConfig)
      (acc : List (String × ℚ) × List (String × ℚ)) (cfg : AddrConfig),
      cfg ∈ configs →
      ∀ raw : ℚ, dictGet values (collector_lookup_key isRtu cfg) = some raw →
      (cfg.address, apply_scaling cfg raw) ∈
        (configs.foldl (persist_step isRtu n values) acc).2
  | [], _, _, hmem, _, _ => absurd hmem (List.not_mem_nil _)
  | c :: rest, acc, cfg, hmem, raw, hraw => by
    rcases List.mem_cons.mp hmem with heq | htail
    · subst heq
      apply persist_foldl_snd_mono isRtu n values rest
      unfold persist_step
      simp [hraw, h10]
    · exact persist_foldl_snd_mem isRtu n values h10 rest _ cfg htail raw hraw

lemma persist_foldl_snd_const (isRtu : Bool) (n : ℕ)
    (values : List (String × ℚ)) (h10 : ¬ 10 < n) :
    ∀ (configs : List AddrConfig)
      (acc : List (String × ℚ) × List (String × ℚ)),
      (configs.foldl (persist_step isRtu n values) acc).2 = acc.2
  | [], _ => rfl
  | c :: rest, acc => by
    rw [List.foldl_cons, persist_foldl_snd_const isRtu n values h10 rest]
    unfold persist_step
    cases h : dictGet values (collector_lookup_key isRtu c) <;> simp [h10]

/-- C3 counterexample inputs: 11 configured addresses, each with a
successfully read raw value. -/
def cfgs11 : List AddrConfig :=
  ["a1", "a2", "a3", "a4", "a5", "a6", "a7", "a8", "a9", "a10", "a11"].map
    fun a => ⟨a, none, some 1, none, none⟩

/-- Raw values for `cfgs11`: every address reads 5. -/
def vals11 : List (String × ℚ) :=
  ["a1", "a2", "a3", "a4", "a5", "a6", "a7", "a8", "a9", "a10", "a11"].map
    fun a => (a, 5)

/-- C3 counterexample: the claim fails on the code.  A device with 11
configured addresses (more than 10) does issue one batch write — but the
successfully read points are still ALSO written individually, one
`write_enhanced_plc_data` call per point (plc_collector.py 712-721 runs
unconditionally), contradicting the claim's "persisted by one batch write
per cycle per device (not individually)". -/
theorem batch_persist_counterexample :
    10 < cfgs11.length ∧
    (collect_persist false cfgs11 vals11).batchWriteIssued = true ∧
    (collect_persist false cfgs11 vals11).individualWrites.length = 11 := by
  decide

/-- C3 amended: every successfully read point is written to the store
individually in every cycle, regardless of the address count; when the
device has more than 10 configured addresses the successfully read points
are ADDITIONALLY accumulated and persisted by one batch write per cycle per
device; with at most 10 addresses no batch write occurs; in both cases
every successfully read address ends up present in the store (its point is
among the individual writes). -/
theorem persistence_amended (isRtu : Bool) (configs : List AddrConfig)
    (values : List (String × ℚ)) :
    (configs.length ≤ 10 →
      (collect_persist isRtu configs values).batchPoints = [] ∧
      (collect_persist isRtu configs values).batchWriteIssued = false) ∧
    (∀ cfg ∈ configs, ∀ raw : ℚ,
      dictGet values (collector_lookup_key isRtu cfg) = some raw →
      (cfg.address, apply_scaling cfg raw) ∈
        (collect_persist isRtu configs values).individualWrites ∧
      (10 < configs.length →
        (cfg.address, apply_scaling cfg raw) ∈
          (collect_persist isRtu configs values).batchPoints ∧
        (collect_persist isRtu configs values).batchWriteIssued = true)) := by
  constructor
  · intro hle
    have h10 : ¬ 10 < configs.length := by omega
    have hsnd := persist_foldl_snd_const isRtu configs.length values h10
      configs ([], [])
    refine ⟨by simpa [collect_persist] using hsnd, ?_⟩
    simp [collect_persist, hsnd, h10]
  · intro cfg hmem raw hraw
    refine ⟨persist_foldl_fst_mem isRtu configs.length values configs ([], [])
      cfg hmem raw hraw, fun h10 => ?_⟩
    have hb := persist_foldl_snd_mem isRtu configs.length values h10 configs
      ([], []) cfg hmem raw hraw
    refine ⟨hb, ?_⟩
    have hne := List.ne_nil_of_mem hb
    simp only [collect_persist, Bool.and_eq_true, decide_eq_true_eq]
    exact ⟨by simpa [List.isEmpty_iff] using hne, h10⟩

/-- Witness for the amended C3 theorem on the 11-address device: the point
for address "a1" is among the individual writes and among the batch points,
and both write paths fire. -/
theorem persistence_amended_witness :
    ("a1", apply_scaling ⟨"a1", none, some 1, none, none⟩ 5) ∈
      (collect_persist false cfgs11 vals11).individualWrites ∧
    ("a1", apply_scaling ⟨"a1", none, some 1, none, none⟩ 5) ∈
      (collect_persist false cfgs11 vals11).batchPoints ∧
    (collect_persist false cfgs11 vals11).batchWriteIssued = true := by
  have h := (persistence_amended false cfgs11 vals11).2
    ⟨"a1", none, some 1, none, none⟩ (by decide) 5 (by decide)
  exact ⟨h.1, (h.2 (by decide)).1, (h.2 (by decide)).2⟩

/-! ## Device loader (plc_collector.py 408-496) -/

/-- Device row fields the loader uses for prioritization. -/
structure DeviceRec where
  id : ℕ
  group_id : Option ℕ
  deriving Repr, DecidableEq

/-- Sort key of `device_data.sort(key=lambda d: (d['group_id'] or 999,
d['id']))` (plc_collector.py 434); the Python `or` maps both a missing group
and group 0 to 999. -/
def load_sort_key (d : DeviceRec) : ℕ × ℕ :=
  (match d.group_id with
   | some g => if g = 0 then 999 else g
   | none => 999,
   d.id)

/-- Lexicographic comparison on the sort key, as Python tuple ordering. -/
def load_le (a b : DeviceRec) : Prop :=
  (load_sort_key a).1 < (load_sort_key b).1 ∨
    ((load_sort_key a).1 = (load_sort_key b).1 ∧
      (load_sort_key a).2 ≤ (load_sort_key b).2)

instance : DecidableRel load_le := fun a b => by
  unfold load_le; infer_instance

instance : IsTotal DeviceRec load_le :=
  ⟨by intro a b; unfold load_le; omega⟩

instance : IsTrans DeviceRec load_le :=
  ⟨by intro a b c; unfold load_le; omega⟩

/-- Result of `_load_devices`: the device ids a `PLCConnection` was created
and connected for (in priority order), and the resulting stored status per
device id. -/
structure LoadResult where
  connected_ids : List ℕ
  statusOf : ℕ → String

/-- Embeds `PLCCollector._load_devices` (plc_collector.py 408-496): sort the
active devices by group then id, truncate the list to the connection cap,
create and connect one connection per retained device, and update only the
retained devices' stored status to online/offline according to the connect
outcome.  Devices beyond the cap get no connection and their stored status
is not written at all.  Python list sort is stable; it is modelled by the
stable insertion sort. -/
def load_devices (devices : List DeviceRec) (maxConn : ℕ)
    (connectOk : ℕ → Bool) (prevStatus : ℕ → String) : LoadResult :=
  let sorted := List.insertionSort load_le devices
  let taken := sorted.take maxConn
  { connected_ids := taken.map DeviceRec.id
    statusOf := fun i =>
      if i ∈ taken.map DeviceRec.id then
        if connectOk i then "online" else "offline"
      else prevStatus i }

/-! ## Device status surface (plc_collector.py 805-849) -/

/-- Fields of a live `PLCConnection` read by `get_device_status`. -/
structure ConnView where
  is_connected : Bool
  last_error : Option String
  device_name : String
  retry_count : ℕ
  last_connect_time : Option ℚ
  deriving Repr, DecidableEq

/-- Status dict returned by `get_device_status` for one device. -/
structure StatusDict where
  is_connected : Bool
  last_error : Option String
  device_name : String
  status : String
  retry_count : ℕ
  last_connect_time : Option ℚ
  deriving Repr, DecidableEq

/-- Lookup in the `connections` map (`self.connections.get(device_id)`). -/
def lookupConn : List (ℕ × ConnView) → ℕ → Option ConnView
  | [], _ => none
  | (k, v) :: rest, i => if k = i then some v else lookupConn rest i

/-- Embeds `PLCCollector.get_device_status` for a single device id
(plc_collector.py 815-836).  The last-error text of the default record is
the source's Chinese message meaning "device connection does not exist". -/
def get_device_status (conns : List (ℕ × ConnView)) (device_id : ℕ) :
    StatusDict :=
  match lookupConn conns device_id with
  | some c =>
      ⟨c.is_connected, c.last_error, c.device_name,
        if c.is_connected then "online" else "offline",
        c.retry_count, c.last_connect_time⟩
  | none => ⟨false, some "设备连接不存在", "Unknown", "offline", 0, none⟩

/-! ## Theorems for claim C8 (connection cap and priority) -/

/-- C8 counterexample: the claim fails on the code.  With two devices and a
cap of 1, only the highest-priority device gets a connection, but the
remaining device's stored status is left at its previous value ("online"
here) — the loader never writes the status "disconnected" (it only writes
"online"/"offline", and only for the devices it retained). -/
theorem load_cap_counterexample :
    (load_devices [⟨1, some 1⟩, ⟨2, some 2⟩] 1 (fun _ => true)
      (fun _ => "online")).connected_ids = [1] ∧
    (2 : ℕ) ∉ (load_devices [⟨1, some 1⟩, ⟨2, some 2⟩] 1 (fun _ => true)
      (fun _ => "online")).connected_ids ∧
    (load_devices [⟨1, some 1⟩, ⟨2, some 2⟩] 1 (fun _ => true)
      (fun _ => "online")).statusOf 2 = "online" ∧
    ("online" : String) ≠ "disconnected" := by
  decide

/-- C8 amended: when the number of active devices exceeds
`maxConcurrentConnections = N`, the loader connects exactly the N
highest-priority devices (sorted by group — missing or zero group last as
999 — then id): the retained ids are the first N of the sorted order, every
retained device precedes every dropped device in that order, retained
devices get status "online"/"offline" by connect outcome, and every device
beyond the cap gets no connection and its stored status is left unchanged
(in particular it is never set to "disconnected"). -/
theorem load_cap_amended (devices : List DeviceRec) (maxConn : ℕ)
    (connectOk : ℕ → Bool) (prevStatus : ℕ → String) :
    ((load_devices devices maxConn connectOk prevStatus).connected_ids.length
      = min maxConn devices.length) ∧
    ((load_devices devices maxConn connectOk prevStatus).connected_ids
      = ((List.insertionSort load_le devices).take maxConn).map DeviceRec.id) ∧
    (∀ a ∈ (List.insertionSort load_le devices).take maxConn,
      ∀ b ∈ (List.insertionSort load_le devices).drop maxConn, load_le a b) ∧
    (∀ i : ℕ,
      i ∉ (load_devices devices maxConn connectOk prevStatus).connected_ids →
      (load_devices devices maxConn connectOk prevStatus).statusOf i
        = prevStatus i) ∧
    (∀ i ∈ (load_devices devices maxConn connectOk prevStatus).connected_ids,
      (load_devices devices maxConn connectOk prevStatus).statusOf i
        = if connectOk i then "online" else "offline") := by
  refine ⟨?_, rfl, ?_, ?_, ?_⟩
  · simp [load_devices, List.length_take,
      (List.perm_insertionSort load_le devices).length_eq]
  · intro a ha b hb
    have hp : ((List.insertionSort load_le devices).take maxConn ++
        (List.insertionSort load_le devices).drop maxConn).Pairwise load_le := by
      rw [List.take_append_drop]
      exact List.sorted_insertionSort load_le devices
    exact (List.pairwise_append.mp hp).2.2 a ha b hb
  · intro i hi
    simp only [load_devices] at hi ⊢
    rw [if_neg hi]
  · intro i hi
    simp only [load_devices] at hi ⊢
    rw [if_pos hi]

/-- Witness for the amended C8 theorem on the two-device instance with cap
1: the dropped device keeps its previous status and the retained one is
marked online. -/
theorem load_cap_amended_witness :
    (load_devices [⟨1, some 1⟩, ⟨2, some 2⟩] 1 (fun _ => true)
      (fun _ => "mystatus")).statusOf 2 = "mystatus" ∧
    (load_devices [⟨1, some 1⟩, ⟨2, some 2⟩] 1 (fun _ => true)
      (fun _ => "mystatus")).statusOf 1 = "online" := by
  have h := load_cap_amended [⟨1, some 1⟩, ⟨2, some 2⟩] 1 (fun _ => true)
    (fun _ => "mystatus")
  exact ⟨h.2.2.2.1 2 (by decide), (h.2.2.2.2 1 (by decide)).trans (by decide)⟩

/-! ## Theorems for claim C10 (status query for an unknown device id) -/

/-- C10: a device status query for a device id with no connection returns
the default record — not connected, status "offline", retry count 0, no
last connect time, and a last-error message saying the device connection
does not exist — rather than an exception or an empty result. -/
theorem device_status_default (conns : List (ℕ × ConnView)) (i : ℕ)
    (h : lookupConn conns i = none) :
    get_device_status conns i =
      ⟨false, some "设备连接不存在", "Unknown", "offline", 0, none⟩ := by
  simp [get_device_status, h]

/-- Witness for C10: querying an empty connection map for device 5. -/
theorem device_status_default_witness :
    get_device_status [] 5 =
      ⟨false, some "设备连接不存在", "Unknown", "offline", 0, none⟩ :=
  device_status_default [] 5 rfl

/-! ## Anomaly detector (database.py, DatabaseManager.query_anomalies) -/

/-- Anomaly classification (database.py 818-823). -/
inductive AnomalyType
  | data_interruption | value_spike | out_of_range | communication_error
  deriving Repr, DecidableEq

/-- Severity levels appearing in the source. -/
inductive Severity
  | low | medium | high
  deriving Repr, DecidableEq

/-- One stored `plc_data` record in the query window; `value = none` models
a stored value that is not numeric. -/
structure PlcRecord where
  device_id : ℕ
  address : String
  value : Option ℚ
  timestamp : ℚ
  deriving Repr, DecidableEq

/-- One stored `communication_errors` record in the window;
`error_message = none` models a result row carrying a field other than
`error_message`, which the source skips (database.py 954-958). -/
structure CommRecord where
  device_id : ℕ
  device_name : String
  error_message : Option String
  severity : Option Severity
  timestamp : ℚ
  deriving Repr, DecidableEq

/-- One derived anomaly.  The free-text `anomaly_description` of the source
dict is presentation only and is not modelled. -/
structure AnomalyRec where
  device_id : ℕ
  device_name : String
  address : String
  atype : AnomalyType
  severity : Severity
  timestamp : ℚ
  value : Option ℚ
  deriving Repr, DecidableEq

/-- Gap between a consecutive pair of records. -/
def pair_gap (pq : PlcRecord × PlcRecord) : ℚ :=
  pq.2.timestamp - pq.1.timestamp

/-- Data-interruption pass over the consecutive pairs of a time-sorted
group (database.py 864-881): one anomaly per gap above 300 seconds, severity
medium below 1800 seconds and high otherwise, stamped with the earlier
point of the pair. -/
def interruption_of_pairs (did : ℕ) (dname addr : String) :
    List (PlcRecord × PlcRecord) → List AnomalyRec
  | [] => []
  | pq :: rest =>
      if 300 < pair_gap pq then
        ⟨did, dname, addr, .data_interruption,
          if pair_gap pq < 1800 then .medium else .high,
          pq.1.timestamp, pq.1.value⟩ ::
          interruption_of_pairs did dname addr rest
      else interruption_of_pairs did dname addr rest

/-- Data-interruption anomalies of a time-sorted group. -/
def interruption_anomalies (did : ℕ) (dname addr : String)
    (sorted : List PlcRecord) : List AnomalyRec :=
  interruption_of_pairs did dname addr (sorted.zip sorted.tail)

/-- Mean of a list of rationals (`statistics.mean`). -/
def listMean (l : List ℚ) : ℚ := l.sum / (l.length : ℚ)

/-- Sample variance with denominator n-1, the square of `statistics.stdev`. -/
def sampleVar (l : List ℚ) : ℚ :=
  ((l.map fun x => (x - listMean l) * (x - listMean l)).sum) /
    ((l.length : ℚ) - 1)

/-- Value-spike pass (database.py 883-906).  The source condition
`stdev > 0 and abs(value - mean) > 3 * stdev` is expressed equivalently
without the square root as `var > 0 and (value - mean)^2 > 9 * var`, since
both sides of the original comparison are nonnegative. -/
def spike_anomalies (did : ℕ) (dname addr : String)
    (sorted : List PlcRecord) : List AnomalyRec :=
  let numeric := sorted.filterMap PlcRecord.value
  if 3 ≤ numeric.length then
    let m := listMean numeric
    let v := sampleVar numeric
    sorted.filterMap fun p =>
      match p.value with
      | some x =>
          if 0 < v ∧ 9 * v < (x - m) * (x - m) then
            some ⟨did, dname, addr, .value_spike, .high, p.timestamp, some x⟩
          else none
      | none => none
  else []

/-- Out-of-range predicate of the default policy (database.py 911). -/
def out_of_range_cond (v : ℚ) : Bool := v < 0 || 1000 < v

/-- Out-of-range pass (database.py 908-923), severity medium. -/
def range_anomalies (did : ℕ) (dname addr : String)
    (sorted : List PlcRecord) : List AnomalyRec :=
  sorted.filterMap fun p =>
    match p.value with
    | some x =>
        if out_of_range_cond x then
          some ⟨did, dname, addr, .out_of_range, .medium, p.timestamp, some x⟩
        else none
    | none => none

/-- Ordering by timestamp for `data_points.sort(key=lambda x:
x['timestamp'])` (database.py 853); the stable Python sort is modelled by
the stable insertion sort. -/
def ts_le (a b : PlcRecord) : Prop := a.timestamp ≤ b.timestamp

instance : DecidableRel ts_le := fun a b => by
  unfold ts_le; infer_instance

instance : IsTotal PlcRecord ts_le :=
  ⟨by intro a b; unfold ts_le; exact le_total _ _⟩

instance : IsTrans PlcRecord ts_le :=
  ⟨by intro a b c; unfold ts_le; exact le_trans⟩

/-- Analysis of one device/address group (database.py 848-923): a group
with fewer than 2 stored points is skipped before any detection runs;
otherwise the group is time-sorted and the interruption, spike and range
detectors run in order, taking device and address from the first sorted
point (`data_points[0]`; past the guard the group is nonempty, so the
`getD` defaults are unreachable). -/
def analyzeGroup (deviceNames : ℕ → String) (pts : List PlcRecord) :
    List AnomalyRec :=
  if pts.length < 2 then []
  else
    let sorted := List.insertionSort ts_le pts
    let did := (sorted.head?.map PlcRecord.device_id).getD 0
    let addr := (sorted.head?.map PlcRecord.address).getD ""
    interruption_anomalies did (deviceNames did) addr sorted ++
    spike_anomalies did (deviceNames did) addr sorted ++
    range_anomalies did (deviceNames did) addr sorted

/-- Grouping key `f"{device_id}_{address}"` (database.py 836). -/
def record_key (r : PlcRecord) : String :=
  natStr r.device_id ++ "_" ++ r.address

/-- Group keys in order of first occurrence, as Python dict insertion
order (database.py 826-845). -/
def group_keys (recs : List PlcRecord) : List String :=
  recs.foldl
    (fun acc r => if record_key r ∈ acc then acc else acc ++ [record_key r])
    []

/-- The grouped record lists, in dict order, each preserving query order. -/
def grouped (recs : List PlcRecord) : List (List PlcRecord) :=
  (group_keys recs).map fun k => recs.filter fun r => record_key r == k

/-- Communication-error replay (database.py 949-973): rows without an
`error_message` field value are skipped; severity defaults to high; the
address field of the emitted anomaly is the literal "communication". -/
def comm_anomalies (comms : List CommRecord) : List AnomalyRec :=
  comms.filterMap fun c =>
    c.error_message.map fun _ =>
      ⟨c.device_id, c.device_name, "communication", .communication_error,
        c.severity.getD .high, c.timestamp, none⟩

/-- Summary block of the result (database.py 816-824). -/
structure AnomalySummary where
  total_anomalies : ℕ
  data_interruption : ℕ
  value_spike : ℕ
  out_of_range : ℕ
  communication_error : ℕ
  deriving Repr, DecidableEq

/-- The summary counters are incremented in lockstep with each append in
the source, which totals to counting by type over the final list. -/
def summaryOf (l : List AnomalyRec) : AnomalySummary :=
  ⟨l.length,
   (l.filter fun a => a.atype == .data_interruption).length,
   (l.filter fun a => a.atype == .value_spike).length,
   (l.filter fun a => a.atype == .out_of_range).length,
   (l.filter fun a => a.atype == .communication_error).length⟩

/-- The all-zero summary returned by the exception branch
(database.py 990-1000). -/
def zeroSummary : AnomalySummary := ⟨0, 0, 0, 0, 0⟩

/-- Result dict of `query_anomalies`.  `summary = none` models the bare
`{}` of the store-unavailable branch (database.py 763), which carries no
counters; the `time_range` key is not modelled. -/
structure QueryResult where
  anomalies : List AnomalyRec
  summary : Option AnomalySummary
  error : Option String
  deriving Repr, DecidableEq

/-- Ordering for the final newest-first sort (database.py 976). -/
def ts_ge (a b : AnomalyRec) : Prop := b.timestamp ≤ a.timestamp

instance : DecidableRel ts_ge := fun a b => by
  unfold ts_ge; infer_instance

/-- Embeds `DatabaseManager.query_anomalies` (database.py 749-1006).  The
store interactions are inputs: `apiAvailable` is the `influx_query_api`
presence check of line 761, and each `Except` argument models one store
query, whose exception is caught by the enclosing handler and turned into
the empty result with an `error` field (lines 987-1006). -/
def query_anomalies (apiAvailable : Bool)
    (plcQuery : Except String (List PlcRecord))
    (commQuery : Except String (List CommRecord))
    (deviceNames : ℕ → String) : QueryResult :=
  if !apiAvailable then ⟨[], none, none⟩
  else
    match plcQuery with
    | .error e => ⟨[], some zeroSummary, some e⟩
    | .ok recs =>
        match commQuery with
        | .error e => ⟨[], some zeroSummary, some e⟩
        | .ok comms =>
            let dataAnoms := ((grouped recs).map (analyzeGroup deviceNames)).flatten
            let allAnoms := dataAnoms ++ comm_anomalies comms
            ⟨List.insertionSort ts_ge allAnoms, some (summaryOf allAnoms), none⟩

/-! ## Theorems for claim C4 (degradation without query capability) -/

/-- C4 counterexample: the claim fails on the code.  When the store has no
query capability, `query_anomalies` returns the empty anomaly list with a
bare empty summary and NO error field at all (database.py 761-763); the
`error` key exists only in the exception branch (database.py 987-1006). -/
theorem anomaly_unavailable_counterexample :
    (query_anomalies false (.ok []) (.ok []) (fun _ => "dev")).anomalies
      = [] ∧
    (query_anomalies false (.ok []) (.ok []) (fun _ => "dev")).error
      = none := by
  decide

/-- C4 amended: the anomaly query never lets an exception escape (it is a
total function of its inputs).  When the store has no query capability it
degrades to an empty anomaly list with an empty summary and NO error field;
when a store query fails (exception caught), it degrades to an empty
anomaly list with a zeroed summary and an explicit error field describing
the failure. -/
theorem anomaly_unavailable_amended :
    (∀ (pq : Except String (List PlcRecord))
      (cq : Except String (List CommRecord)) (dn : ℕ → String),
      query_anomalies false pq cq dn = ⟨[], none, none⟩) ∧
    (∀ (e : String) (cq : Except String (List CommRecord)) (dn : ℕ → String),
      query_anomalies true (.error e) cq dn
        = ⟨[], some zeroSummary, some e⟩) ∧
    (∀ (recs : List PlcRecord) (e : String) (dn : ℕ → String),
      query_anomalies true (.ok recs) (.error e) dn
        = ⟨[], some zeroSummary, some e⟩) :=
  ⟨fun _ _ _ => rfl, fun _ _ _ => rfl, fun _ _ _ => rfl⟩

/-! ## Theorems for claim C7 (data-interruption detection) -/

lemma iop_length (did : ℕ) (dname addr : String) :
    ∀ ps : List (PlcRecord × PlcRecord),
      (interruption_of_pairs did dname addr ps).length =
        ps.countP fun pq => decide (300 < pair_gap pq)
  | [] => rfl
  | pq :: rest => by
    by_cases h : 300 < pair_gap pq <;>
      simp [interruption_of_pairs, h, List.countP_cons,
        iop_length did dname addr rest]

lemma iop_medium (did : ℕ) (dname addr : String) :
    ∀ ps : List (PlcRecord × PlcRecord),
      ((interruption_of_pairs did dname addr ps).filter
        fun a => a.severity == Severity.medium).length =
      ps.countP fun pq => decide (300 < pair_gap pq ∧ pair_gap pq < 1800)
  | [] => rfl
  | pq :: rest => by
    by_cases h1 : 300 < pair_gap pq
    · by_cases h2 : pair_gap pq < 1800 <;>
        simp [interruption_of_pairs, h1, h2, List.countP_cons,
          iop_medium did dname addr rest]
    · simp [interruption_of_pairs, h1, List.countP_cons,
        iop_medium did dname addr rest]

lemma iop_high (did : ℕ) (dname addr : String) :
    ∀ ps : List (PlcRecord × PlcRecord),
      ((interruption_of_pairs did dname addr ps).filter
        fun a => a.severity == Severity.high).length =
      ps.countP fun pq => decide (300 < pair_gap pq ∧ 1800 ≤ pair_gap pq)
  | [] => rfl
  | pq :: rest => by
    by_cases h1 : 300 < pair_gap pq
    · by_cases h2 : pair_gap pq < 1800 <;>
        simp [interruption_of_pairs, h1, h2, not_lt.mp, List.countP_cons,
          iop_high did dname addr rest, not_lt]
    · simp [interruption_of_pairs, h1, List.countP_cons,
        iop_high did dname addr rest]

lemma iop_all_type (did : ℕ) (dname addr : String) :
    ∀ ps : List (PlcRecord × PlcRecord),
      (interruption_of_pairs did dname addr ps).all
        (fun a => a.atype == AnomalyType.data_interruption) = true
  | [] => rfl
  | pq :: rest => by
    by_cases h : 300 < pair_gap pq <;>
      simp [interruption_of_pairs, h, iop_all_type did dname addr rest]

/-- Ten evenly spaced points (60 s apart) followed by one point after a
400-second gap, all with value 1, for one device/address series. -/
def tenPlusGap : List PlcRecord :=
  [⟨1, "40001", some 1, 0⟩, ⟨1, "40001", some 1, 60⟩,
   ⟨1, "40001", some 1, 120⟩, ⟨1, "40001", some 1, 180⟩,
   ⟨1, "40001", some 1, 240⟩, ⟨1, "40001", some 1, 300⟩,
   ⟨1, "40001", some 1, 360⟩, ⟨1, "40001", some 1, 420⟩,
   ⟨1, "40001", some 1, 480⟩, ⟨1, "40001", some 1, 540⟩,
   ⟨1, "40001", some 1, 940⟩]

lemma tenPlusGap_sorted : List.Sorted ts_le tenPlusGap := by
  norm_num [tenPlusGap, List.sorted_cons, ts_le]

lemma numeric_tenPlusGap :
    tenPlusGap.filterMap PlcRecord.value =
      [1, 1, 1, 1, 1, 1, 1, 1, 1, 1, 1] := rfl

lemma var_ones : sampleVar [1, 1, 1, 1, 1, 1, 1, 1, 1, 1, 1] = 0 := by
  norm_num [sampleVar, listMean]

lemma spike_tenPlusGap :
    spike_anomalies 1 "dev" "40001" tenPlusGap = [] := by
  simp only [spike_anomalies, numeric_tenPlusGap, var_ones]
  norm_num [tenPlusGap]

lemma range_tenPlusGap :
    range_anomalies 1 "dev" "40001" tenPlusGap = [] := by
  norm_num [range_anomalies, tenPlusGap, out_of_range_cond]

lemma interruption_tenPlusGap :
    interruption_anomalies 1 "dev" "40001" tenPlusGap =
      [⟨1, "dev", "40001", .data_interruption, .medium, 540, some 1⟩] := by
  norm_num [interruption_anomalies, tenPlusGap, interruption_of_pairs,
    pair_gap, List.zip_cons_cons]

lemma analyzeGroup_tenPlusGap :
    (analyzeGroup (fun _ => "dev") tenPlusGap).filter
      (fun a => a.atype == AnomalyType.data_interruption) =
    [⟨1, "dev", "40001", .data_interruption, .medium, 540, some 1⟩] := by
  have hlen : ¬ tenPlusGap.length < 2 := by norm_num [tenPlusGap]
  have hhead₁ : ((tenPlusGap.head?.map PlcRecord.device_id).getD 0) = 1 := rfl
  have hhead₂ : ((tenPlusGap.head?.map PlcRecord.address).getD "") = "40001" :=
    rfl
  simp only [analyzeGroup, if_neg hlen, tenPlusGap_sorted.insertionSort_eq,
    hhead₁, hhead₂, interruption_tenPlusGap, spike_tenPlusGap,
    range_tenPlusGap]
  rfl

/-- C7: over a time-ordered series, the detector emits exactly one
data_interruption anomaly per consecutive gap above 300 seconds; the
anomalies with severity medium are exactly those of gaps below 1800
seconds and the ones with severity high exactly those of gaps of at least
1800 seconds; every emitted anomaly has type data_interruption; and the
ten-evenly-spaced-points-then-400-second-gap series yields through the full
group analysis exactly one data_interruption anomaly, with severity
medium. -/
theorem interruption_detection (did : ℕ) (dname addr : String)
    (sorted : List PlcRecord) :
    ((interruption_anomalies did dname addr sorted).length =
      (sorted.zip sorted.tail).countP fun pq => decide (300 < pair_gap pq)) ∧
    (((interruption_anomalies did dname addr sorted).filter
        fun a => a.severity == Severity.medium).length =
      (sorted.zip sorted.tail).countP fun pq =>
        decide (300 < pair_gap pq ∧ pair_gap pq < 1800)) ∧
    (((interruption_anomalies did dname addr sorted).filter
        fun a => a.severity == Severity.high).length =
      (sorted.zip sorted.tail).countP fun pq =>
        decide (300 < pair_gap pq ∧ 1800 ≤ pair_gap pq)) ∧
    ((interruption_anomalies did dname addr sorted).all
      (fun a => a.atype == AnomalyType.data_interruption) = true) ∧
    (((analyzeGroup (fun _ => "dev") tenPlusGap).filter
        fun a => a.atype == AnomalyType.data_interruption) =
      [⟨1, "dev", "40001", .data_interruption, .medium, 540, some 1⟩]) :=
  ⟨iop_length did dname addr _, iop_medium did dname addr _,
   iop_high did dname addr _, iop_all_type did dname addr _,
   analyzeGroup_tenPlusGap⟩

/-! ## Theorems for claim C9 (groups below two points are skipped) -/

/-- C9: every device/address group with fewer than 2 stored points in the
window is skipped before any detection runs; in particular a window with
exactly one point for an address yields no anomalies at all, even though
its value 2000 satisfies the out-of-range predicate that would otherwise
fire. -/
theorem small_group_skipped :
    (∀ (dn : ℕ → String) (pts : List PlcRecord), pts.length < 2 →
      analyzeGroup dn pts = []) ∧
    out_of_range_cond 2000 = true ∧
    (∀ dn : ℕ → String, analyzeGroup dn [⟨1, "40001", some 2000, 0⟩] = []) := by
  refine ⟨?_, rfl, ?_⟩
  · intro dn pts h
    simp [analyzeGroup, h]
  · intro dn
    rfl

/-- Witness for C9: the single out-of-range point, analysed concretely. -/
theorem small_group_skipped_witness :
    analyzeGroup (fun _ => "dev") [⟨1, "40001", some 2000, 0⟩] = [] :=
  small_group_skipped.1 (fun _ => "dev") [⟨1, "40001", some 2000, 0⟩]
    (by decide)

end PlcAdmin
